import Mathlib

/-!
Verification development for the Tabor Systems AI Telegram bot
(`src/app.py`): a Flask webhook relay that keeps a per-user language
preference and forwards free-text messages to a generative-language API
with retry and backoff.

The Python source is shallowly embedded below:

* `generate_response_with_retry` (app.py lines 55-86) becomes a pure
  function over an *environment* `call : String → Nat → GenOutcome`
  giving, for the prompt and each attempt index, the outcome of
  `model.generate_content(prompt)` (a returned text, a
  `ResourceExhaustedError`, an `APIError`, or any other exception).  The
  function returns a `GenTrace` recording the returned string, the number
  of model calls made, and the list of `time.sleep` durations performed,
  in order.
* The Telegram handlers `start`, `handle_callback`, `handle_message`
  (app.py lines 89-136) become pure functions from the session state
  (the `lang` entry of `context.user_data`, `Option String`) and the
  update's fields to the new session state plus the ordered list of
  outbound side effects (`Effect`).
* The Flask view `webhook` (app.py lines 176-183) becomes a function
  from the request's decode/dispatch behaviour to the HTTP response,
  with Flask's documented semantics for uncaught errors made explicit:
  `request.get_json(force=True)` raises `BadRequest` (handled by Flask
  as HTTP 400) when the body is not parseable JSON, and any other
  exception escaping the view is turned into HTTP 500.
-/

namespace TaborBot

/-- `LANG_AMHARIC = 'AM'` (app.py line 23). -/
def LANG_AMHARIC : String := "AM"

/-- `LANG_ENGLISH = 'EN'` (app.py line 24). -/
def LANG_ENGLISH : String := "EN"

/-- `ACTION_ABOUT = 'ABOUT_CH'` (app.py line 25). -/
def ACTION_ABOUT : String := "ABOUT_CH"

/-- `MAX_RETRIES = 3` (app.py line 26). -/
def MAX_RETRIES : Nat := 3

/-- Localized missing-API-key message (app.py line 58). -/
def MISSING_KEY_MSG : String :=
  "⚠️ ይቅርታ፣ የቦቱ ቁልፍ (API Key) አልተዘጋጀም። እባክዎ የአገልግሎት ቁልፉን በትክክል ያዘጋጁ።"

/-- Localized daily-limit-reached message (app.py line 69). -/
def DAILY_LIMIT_MSG : String :=
  "ይቅርታ፣ የቦቱ የዕለታዊ የአጠቃቀም ገደብ ስለተሟላ ምላሽ መስጠት አልቻልኩም።"

/-- Localized generic-failure message for known API errors (app.py line 77). -/
def API_ERROR_MSG : String :=
  "ይቅርታ፣ በቴክኒካዊ ችግር ምክንያት ምላሽ መስጠት አልቻልኩም።"

/-- Localized unexpected-error message (app.py line 85). -/
def UNEXPECTED_ERROR_MSG : String :=
  "ይቅርታ፣ ያልታወቀ ግንኙነት መቋረጥ አጋጥሟል።"

/-- Message after the `for` loop (app.py line 86); unreachable when the
loop runs all `MAX_RETRIES` attempts, kept for faithfulness. -/
def ALL_FAILED_MSG : String :=
  "ይቅርታ፣ የመልስ ሙከራው ሁሉ አልተሳካም።"

/-- Outcome of a single `model.generate_content(prompt)` call, as the
surrounding `try` block distinguishes them: a returned response whose
`.text` is `s` (app.py line 62; an empty `s` triggers
`raise Exception("Received empty response")` at line 64, caught by the
generic `except` at line 79), a `ResourceExhaustedError` (line 67), an
`APIError` (line 71), or any other raised exception (line 79). -/
inductive GenOutcome where
  | text (s : String)
  | resourceExhausted
  | apiError
  | otherError
deriving DecidableEq

/-- Observable behaviour of one run of `generate_response_with_retry`:
the string it returns, how many `model.generate_content` calls it made,
and the ordered `time.sleep` durations (seconds) it performed. -/
structure GenTrace where
  result : String
  calls : Nat
  sleeps : List Nat
deriving DecidableEq

/-- The `for attempt in range(MAX_RETRIES)` loop body of
`generate_response_with_retry` (app.py lines 60-85), with the remaining
iteration count as structural fuel.  `call prompt attempt` is the outcome
of the `model.generate_content(prompt)` call on this attempt.  Falling
out of the loop returns `ALL_FAILED_MSG` (line 86). -/
def runAttempts (call : String → Nat → GenOutcome) (prompt : String) :
    Nat → Nat → Nat → List Nat → GenTrace
  | 0, _, nCalls, sleeps => ⟨ALL_FAILED_MSG, nCalls, sleeps⟩
  | fuel + 1, attempt, nCalls, sleeps =>
    match call prompt attempt with
    | .text s =>
      if s = "" then
        if attempt < MAX_RETRIES - 1 then
          runAttempts call prompt fuel (attempt + 1) (nCalls + 1) (sleeps ++ [2 ^ attempt])
        else
          ⟨UNEXPECTED_ERROR_MSG, nCalls + 1, sleeps⟩
      else
        ⟨s, nCalls + 1, sleeps⟩
    | .resourceExhausted => ⟨DAILY_LIMIT_MSG, nCalls + 1, sleeps⟩
    | .apiError =>
      if attempt < MAX_RETRIES - 1 then
        runAttempts call prompt fuel (attempt + 1) (nCalls + 1) (sleeps ++ [2 ^ attempt])
      else
        ⟨API_ERROR_MSG, nCalls + 1, sleeps⟩
    | .otherError =>
      if attempt < MAX_RETRIES - 1 then
        runAttempts call prompt fuel (attempt + 1) (nCalls + 1) (sleeps ++ [2 ^ attempt])
      else
        ⟨UNEXPECTED_ERROR_MSG, nCalls + 1, sleeps⟩

/-- `generate_response_with_retry(prompt)` (app.py lines 55-86).
`apiKeyConfigured` is the truthiness of `GENAI_API_KEY` (line 57);
when it is false the fixed missing-key string is returned with no model
call.  Otherwise the retry loop runs with `MAX_RETRIES` iterations. -/
def generate_response_with_retry (apiKeyConfigured : Bool)
    (call : String → Nat → GenOutcome) (prompt : String) : GenTrace :=
  if apiKeyConfigured = false then ⟨MISSING_KEY_MSG, 0, []⟩
  else runAttempts call prompt MAX_RETRIES 0 0 []

/-- One unfolding of the loop when iterations remain: exactly the
`try`/`except` dispatch of app.py lines 61-85. -/
lemma runAttempts_succ (call : String → Nat → GenOutcome) (prompt : String)
    (fuel attempt nCalls : Nat) (sleeps : List Nat) :
    runAttempts call prompt (fuel + 1) attempt nCalls sleeps =
      match call prompt attempt with
      | .text s =>
        if s = "" then
          if attempt < MAX_RETRIES - 1 then
            runAttempts call prompt fuel (attempt + 1) (nCalls + 1) (sleeps ++ [2 ^ attempt])
          else
            ⟨UNEXPECTED_ERROR_MSG, nCalls + 1, sleeps⟩
        else
          ⟨s, nCalls + 1, sleeps⟩
      | .resourceExhausted => ⟨DAILY_LIMIT_MSG, nCalls + 1, sleeps⟩
      | .apiError =>
        if attempt < MAX_RETRIES - 1 then
          runAttempts call prompt fuel (attempt + 1) (nCalls + 1) (sleeps ++ [2 ^ attempt])
        else
          ⟨API_ERROR_MSG, nCalls + 1, sleeps⟩
      | .otherError =>
        if attempt < MAX_RETRIES - 1 then
          runAttempts call prompt fuel (attempt + 1) (nCalls + 1) (sleeps ++ [2 ^ attempt])
        else
          ⟨UNEXPECTED_ERROR_MSG, nCalls + 1, sleeps⟩ := rfl

/-- With the API key configured, the wrapper is the loop started at
attempt 0 with no calls and no sleeps recorded. -/
lemma generate_true (call : String → Nat → GenOutcome) (prompt : String) :
    generate_response_with_retry true call prompt =
      runAttempts call prompt MAX_RETRIES 0 0 [] := rfl

/-- Whatever the environment does, the loop never returns the empty
string: a success branch returns a string checked non-empty, and every
failure branch returns one of the fixed localized messages. -/
lemma runAttempts_result_ne_empty (call : String → Nat → GenOutcome) (prompt : String) :
    ∀ (fuel attempt nCalls : Nat) (sleeps : List Nat),
      (runAttempts call prompt fuel attempt nCalls sleeps).result ≠ "" := by
  intro fuel
  induction fuel with
  | zero =>
    intro attempt nCalls sleeps
    show ALL_FAILED_MSG ≠ ""
    decide
  | succ fuel ih =>
    intro attempt nCalls sleeps
    rw [runAttempts_succ]
    cases h : call prompt attempt with
    | text s =>
      by_cases hs : s = ""
      · subst hs
        simp only [if_pos rfl]
        by_cases hlt : attempt < MAX_RETRIES - 1
        · simpa [hlt] using ih (attempt + 1) (nCalls + 1) (sleeps ++ [2 ^ attempt])
        · simp only [if_neg hlt]
          show UNEXPECTED_ERROR_MSG ≠ ""
          decide
      · simp [hs]
    | resourceExhausted =>
      show DAILY_LIMIT_MSG ≠ ""
      decide
    | apiError =>
      by_cases hlt : attempt < MAX_RETRIES - 1
      · simpa [hlt] using ih (attempt + 1) (nCalls + 1) (sleeps ++ [2 ^ attempt])
      · simp only [if_neg hlt]
        show API_ERROR_MSG ≠ ""
        decide
    | otherError =>
      by_cases hlt : attempt < MAX_RETRIES - 1
      · simpa [hlt] using ih (attempt + 1) (nCalls + 1) (sleeps ++ [2 ^ attempt])
      · simp only [if_neg hlt]
        show UNEXPECTED_ERROR_MSG ≠ ""
        decide

/-- C1: for every prompt and environment the wrapper is a total function
returning a non-empty display string (no exception reaches the caller:
the embedding returns a `GenTrace` on every input), and with no API
credential configured it returns the fixed localized missing-key string
with zero model calls and zero sleeps. -/
theorem generate_response_total_nonempty (apiKeyConfigured : Bool)
    (call : String → Nat → GenOutcome) (prompt : String) :
    (generate_response_with_retry apiKeyConfigured call prompt).result ≠ "" ∧
    generate_response_with_retry false call prompt = ⟨MISSING_KEY_MSG, 0, []⟩ := by
  constructor
  · cases apiKeyConfigured with
    | false =>
      show MISSING_KEY_MSG ≠ ""
      decide
    | true =>
      rw [generate_true]
      exact runAttempts_result_ne_empty call prompt MAX_RETRIES 0 0 []
  · rfl

/-- C3: a quota-exhaustion error (`ResourceExhaustedError`) on the first
attempt short-circuits: exactly one model call, no sleep, and the fixed
localized daily-limit string is returned (app.py lines 67-69). -/
theorem quota_short_circuit (call : String → Nat → GenOutcome) (prompt : String)
    (h : call prompt 0 = GenOutcome.resourceExhausted) :
    generate_response_with_retry true call prompt = ⟨DAILY_LIMIT_MSG, 1, []⟩ := by
  rw [generate_true]
  show runAttempts call prompt (2 + 1) 0 0 [] = _
  rw [runAttempts_succ, h]

/-- Witness for C3: an environment whose every call raises
`ResourceExhaustedError`. -/
theorem quota_short_circuit_witness :
    generate_response_with_retry true (fun _ _ => GenOutcome.resourceExhausted) " hi" =
      ⟨DAILY_LIMIT_MSG, 1, []⟩ :=
  quota_short_circuit (fun _ _ => GenOutcome.resourceExhausted) " hi" rfl

/-- C4: when every model call raises a generic `APIError`, the wrapper
makes exactly 3 calls, sleeps 1 second after the first failure and
2 seconds after the second, and returns the localized known-API-error
fallback string (app.py lines 60, 71-77). -/
theorem api_error_three_calls (call : String → Nat → GenOutcome) (prompt : String)
    (h : ∀ i, call prompt i = GenOutcome.apiError) :
    generate_response_with_retry true call prompt = ⟨API_ERROR_MSG, 3, [1, 2]⟩ := by
  rw [generate_true]
  show runAttempts call prompt (2 + 1) 0 0 [] = _
  rw [runAttempts_succ, h 0]
  show runAttempts call prompt (1 + 1) 1 1 [1] = _
  rw [runAttempts_succ, h 1]
  show runAttempts call prompt (0 + 1) 2 2 [1, 2] = _
  rw [runAttempts_succ, h 2]
  rfl

/-- Witness for C4: the all-`APIError` environment. -/
theorem api_error_three_calls_witness :
    generate_response_with_retry true (fun _ _ => GenOutcome.apiError) "hi" =
      ⟨API_ERROR_MSG, 3, [1, 2]⟩ :=
  api_error_three_calls (fun _ _ => GenOutcome.apiError) "hi" (fun _ => rfl)

/-- On the last attempt (index 2) the loop never sleeps: every branch
returns immediately, since `attempt < MAX_RETRIES - 1` fails. -/
lemma runAttempts_last_sleeps (call : String → Nat → GenOutcome) (prompt : String)
    (nCalls : Nat) (sleeps : List Nat) :
    (runAttempts call prompt 1 2 nCalls sleeps).sleeps = sleeps := by
  rw [show (1 : Nat) = 0 + 1 from rfl, runAttempts_succ]
  cases h : call prompt 2 with
  | text s => by_cases hs : s = "" <;> simp [hs, MAX_RETRIES]
  | resourceExhausted => rfl
  | apiError => simp [MAX_RETRIES]
  | otherError => simp [MAX_RETRIES]

/-- Starting from attempt 1, the loop adds at most one more sleep, of
2 seconds. -/
lemma runAttempts_snd_sleeps (call : String → Nat → GenOutcome) (prompt : String)
    (nCalls : Nat) (sleeps : List Nat) :
    (runAttempts call prompt 2 1 nCalls sleeps).sleeps = sleeps ∨
    (runAttempts call prompt 2 1 nCalls sleeps).sleeps = sleeps ++ [2] := by
  rw [show (2 : Nat) = 1 + 1 from rfl, runAttempts_succ]
  cases h : call prompt 1 with
  | text s =>
    by_cases hs : s = ""
    · subst hs
      simp only [if_pos rfl, show 1 < MAX_RETRIES - 1 from by decide, if_true]
      right
      rw [runAttempts_last_sleeps]
      norm_num
    · simp [hs]
  | resourceExhausted => exact Or.inl rfl
  | apiError =>
    simp only [show 1 < MAX_RETRIES - 1 from by decide, if_true]
    right
    rw [runAttempts_last_sleeps]
    norm_num
  | otherError =>
    simp only [show 1 < MAX_RETRIES - 1 from by decide, if_true]
    right
    rw [runAttempts_last_sleeps]
    norm_num

/-- Over a whole run the recorded sleeps are `[]`, `[1]` or `[1, 2]`. -/
lemma runAttempts_sleeps_cases (call : String → Nat → GenOutcome) (prompt : String) :
    (runAttempts call prompt MAX_RETRIES 0 0 []).sleeps = [] ∨
    (runAttempts call prompt MAX_RETRIES 0 0 []).sleeps = [1] ∨
    (runAttempts call prompt MAX_RETRIES 0 0 []).sleeps = [1, 2] := by
  rw [show MAX_RETRIES = 2 + 1 from rfl, runAttempts_succ]
  cases h : call prompt 0 with
  | text s =>
    by_cases hs : s = ""
    · subst hs
      simp only [if_pos rfl, show 0 < MAX_RETRIES - 1 from by decide, if_true]
      right
      simpa using runAttempts_snd_sleeps call prompt 1 [1]
    · simp [hs]
  | resourceExhausted => exact Or.inl rfl
  | apiError =>
    simp only [show 0 < MAX_RETRIES - 1 from by decide, if_true]
    right
    simpa using runAttempts_snd_sleeps call prompt 1 [1]
  | otherError =>
    simp only [show 0 < MAX_RETRIES - 1 from by decide, if_true]
    right
    simpa using runAttempts_snd_sleeps call prompt 1 [1]

/-- C5 counterexample: on the worst-case path (a generic `APIError` on
every attempt) the code sleeps `[1, 2]` — a cumulative backoff of
3 seconds, never 7, and no 4-second sleep ever occurs: the guard
`attempt < MAX_RETRIES - 1` (app.py line 73) skips the sleep after the
final attempt. -/
theorem backoff_seven_seconds_counterexample :
    (generate_response_with_retry true (fun _ _ => GenOutcome.apiError) "hello").sleeps
        = [1, 2] ∧
    ((generate_response_with_retry true (fun _ _ => GenOutcome.apiError) "hello").sleeps).sum
        = 3 ∧
    ¬ ((generate_response_with_retry true (fun _ _ => GenOutcome.apiError) "hello").sleeps).sum
        = 7 ∧
    ¬ 4 ∈ (generate_response_with_retry true (fun _ _ => GenOutcome.apiError) "hello").sleeps := by
  refine ⟨rfl, rfl, by decide, by decide⟩

/-- C5 amended: a wait of `2 ^ attempt` seconds is inserted only after a
failed non-final attempt (attempts 0 and 1 → 1s, 2s); no sleep follows
the final attempt, so cumulative backoff is at most 3 seconds. -/
theorem backoff_at_most_three_seconds (apiKeyConfigured : Bool)
    (call : String → Nat → GenOutcome) (prompt : String) :
    ((generate_response_with_retry apiKeyConfigured call prompt).sleeps = [] ∨
     (generate_response_with_retry apiKeyConfigured call prompt).sleeps = [1] ∨
     (generate_response_with_retry apiKeyConfigured call prompt).sleeps = [1, 2]) ∧
    ((generate_response_with_retry apiKeyConfigured call prompt).sleeps).sum ≤ 3 := by
  cases apiKeyConfigured with
  | false =>
    refine ⟨Or.inl rfl, ?_⟩
    show ([] : List Nat).sum ≤ 3
    decide
  | true =>
    rw [generate_true]
    refine ⟨runAttempts_sleeps_cases call prompt, ?_⟩
    rcases runAttempts_sleeps_cases call prompt with h | h | h <;> rw [h] <;> decide

/-- A `generate_content` outcome after the code's empty-text check: an
empty returned text is turned into a raised generic exception
(app.py lines 63-64), which the generic `except` at line 79 handles. -/
def emptyAsError (o : GenOutcome) : GenOutcome :=
  match o with
  | .text s => if s = "" then .otherError else .text s
  | o => o

/-- Replacing empty-text outcomes by generic exceptions leaves every
step of the loop unchanged. -/
lemma runAttempts_emptyAsError (call : String → Nat → GenOutcome) (prompt : String) :
    ∀ (fuel attempt nCalls : Nat) (sleeps : List Nat),
      runAttempts (fun p i => emptyAsError (call p i)) prompt fuel attempt nCalls sleeps =
        runAttempts call prompt fuel attempt nCalls sleeps := by
  intro fuel
  induction fuel with
  | zero => intro attempt nCalls sleeps; rfl
  | succ fuel ih =>
    intro attempt nCalls sleeps
    simp only [runAttempts_succ]
    cases h : call prompt attempt with
    | text s =>
      by_cases hs : s = ""
      · subst hs
        by_cases hlt : attempt < MAX_RETRIES - 1
        · simp only [emptyAsError, if_pos rfl, hlt, if_true]
          exact ih (attempt + 1) (nCalls + 1) (sleeps ++ [2 ^ attempt])
        · simp [emptyAsError, hlt]
      · simp [emptyAsError, hs]
    | resourceExhausted => rfl
    | apiError =>
      by_cases hlt : attempt < MAX_RETRIES - 1
      · simp only [emptyAsError, hlt, if_true]
        exact ih (attempt + 1) (nCalls + 1) (sleeps ++ [2 ^ attempt])
      · simp [emptyAsError, hlt]
    | otherError =>
      by_cases hlt : attempt < MAX_RETRIES - 1
      · simp only [emptyAsError, hlt, if_true]
        exact ih (attempt + 1) (nCalls + 1) (sleeps ++ [2 ^ attempt])
      · simp [emptyAsError, hlt]

/-- C6: an empty-text model response is handled identically to a raised
generic (non-quota, non-`APIError`) exception — replacing every
empty-text outcome of the environment by a generic exception changes
nothing about the run (same result string, same call count, same
sleeps); in particular the all-empty-text and all-generic-exception
runs both make 3 calls, sleep `[1, 2]`, and return the localized
unexpected-error fallback. -/
theorem empty_text_equiv_generic_error (apiKeyConfigured : Bool)
    (call : String → Nat → GenOutcome) (prompt : String) :
    (generate_response_with_retry apiKeyConfigured (fun p i => emptyAsError (call p i)) prompt =
       generate_response_with_retry apiKeyConfigured call prompt) ∧
    generate_response_with_retry true (fun _ _ => GenOutcome.text "") prompt =
      ⟨UNEXPECTED_ERROR_MSG, 3, [1, 2]⟩ ∧
    generate_response_with_retry true (fun _ _ => GenOutcome.otherError) prompt =
      ⟨UNEXPECTED_ERROR_MSG, 3, [1, 2]⟩ := by
  refine ⟨?_, rfl, rfl⟩
  cases apiKeyConfigured with
  | false => rfl
  | true =>
    rw [generate_true, generate_true]
    exact runAttempts_emptyAsError call prompt MAX_RETRIES 0 0 []

/-- An inline keyboard button (`InlineKeyboardButton(text, callback_data)`). -/
structure Button where
  text : String
  callback_data : String
deriving DecidableEq

/-- An outbound side effect on the chat platform, in the order the
handlers perform them: `query.answer()`, `update.message.reply_text`
(a new message replying in the same chat, with an optional inline
keyboard), `query.edit_message_text` (editing the picker message),
`context.bot.send_message`, and `context.bot.send_chat_action`. -/
inductive Effect where
  | answerCallback
  | replyText (text : String) (markup : Option (List (List Button)))
  | editMessageText (text : String) (markup : Option (List (List Button)))
  | sendMessage (chat_id : Nat) (text : String)
  | sendChatAction (chat_id : Nat) (action : String)
deriving DecidableEq

/-- The two-button language picker keyboard of `start`
(app.py lines 90-93). -/
def startKeyboard : List (List Button) :=
  [[⟨"አማርኛ (Amharic)", LANG_AMHARIC⟩], [⟨"English (English)", LANG_ENGLISH⟩]]

/-- The picker prompt text of `start` (app.py line 96). -/
def START_TEXT : String :=
  "እባክዎ የሚጠቀሙበትን ቋንቋ ይምረጡ።\nPlease select your preferred language."

/-- Amharic About description (app.py line 124). -/
def ABOUT_TEXT_AM : String :=
  "የTabor Systems ቻናል በዋናነት የሚያተኩረው በ IT Support & Networking፣ Fullstack Web Development እና Database Administration ላይ ነው። ተገንቢ፡ Tabor Systems"

/-- English About description (app.py line 126). -/
def ABOUT_TEXT_EN : String :=
  "Tabor Systems Channel focuses on IT Support & Networking, Fullstack Web Development, and Database Administration. Built by: Tabor Systems"

/-- The session state the handlers touch: the `lang` entry of
`context.user_data` (`none` when the key is absent). -/
abbrev SessionLang := Option String

/-- `start(update, context)` (app.py lines 89-98): replies with the
language picker.  It never reads or writes `context.user_data`, so the
session state is returned unchanged. -/
def start (lang : SessionLang) : SessionLang × List Effect :=
  (lang, [.replyText START_TEXT (some startKeyboard)])

/-- `handle_callback(update, context)` (app.py lines 100-127).
`data` is `query.data`, `first_name` is `query.from_user.first_name`
(`""` for a falsy value, mirroring the Python truthiness test at
line 104), `chat_id` is `query.message.chat_id`.  Returns the new
`lang` session entry and the ordered effects. -/
def handle_callback (lang : SessionLang) (data : String) (first_name : String)
    (chat_id : Nat) : SessionLang × List Effect :=
  let user_name := if first_name = "" then "ጌታዬ" else first_name
  if data = LANG_AMHARIC ∨ data = LANG_ENGLISH then
    let main_message :=
      if data = LANG_AMHARIC then
        "ሰላም 👋 " ++ user_name ++ "፣ እንኳን ወደ Tabor Systems Ai በደኅና መጡ።\n\nአሁን ማንኛውንም አይነት ጥያቄ መጠየቅ ይችላሉ።"
      else
        "Hello 👋 " ++ user_name ++ ", welcome to Tabor Systems AI.\n\nYou can now ask me any question."
    let about_btn_text :=
      if data = LANG_AMHARIC then "ℹ️ ስለ ቻናሉ" else "ℹ️ About Channel"
    (some data,
      [.answerCallback, .editMessageText main_message (some [[⟨about_btn_text, ACTION_ABOUT⟩]])])
  else if data = ACTION_ABOUT then
    let l := lang.getD LANG_AMHARIC
    let about_text := if l = LANG_AMHARIC then ABOUT_TEXT_AM else ABOUT_TEXT_EN
    (lang, [.answerCallback, .sendMessage chat_id about_text])
  else
    (lang, [.answerCallback])

/-- `handle_message(update, context)` (app.py lines 130-136): emits the
typing chat action, runs the completion client on the raw text, and
replies with its result.  The session state is untouched. -/
def handle_message (lang : SessionLang) (text : String) (chat_id : Nat)
    (apiKeyConfigured : Bool) (call : String → Nat → GenOutcome) :
    SessionLang × List Effect :=
  let response_text := (generate_response_with_retry apiKeyConfigured call text).result
  (lang, [.sendChatAction chat_id "typing", .replyText response_text none])

/-- One inbound update, as the dispatcher's three registered handlers
distinguish them (app.py lines 147-149): the `/start` command, a
callback query, or a plain text message. -/
inductive BotUpdate where
  | startCmd
  | callback (data : String) (first_name : String) (chat_id : Nat)
  | textMsg (text : String) (chat_id : Nat)

/-- Dispatch of one update to its handler, returning the new session
state (effects discarded). -/
def process_update (apiKeyConfigured : Bool) (call : String → Nat → GenOutcome)
    (lang : SessionLang) (u : BotUpdate) : SessionLang × List Effect :=
  match u with
  | .startCmd => start lang
  | .callback data first_name chat_id => handle_callback lang data first_name chat_id
  | .textMsg text chat_id => handle_message lang text chat_id apiKeyConfigured call

/-- Folding a sequence of updates through the dispatcher, tracking the
session language state. -/
def runUpdates (apiKeyConfigured : Bool) (call : String → Nat → GenOutcome) :
    List BotUpdate → SessionLang → SessionLang
  | [], lang => lang
  | u :: us, lang =>
    runUpdates apiKeyConfigured call us (process_update apiKeyConfigured call lang u).1

/-- The language invariant: the session's `lang` entry is absent or one
of the two valid codes. -/
def langValid (lang : SessionLang) : Prop :=
  lang = none ∨ lang = some LANG_AMHARIC ∨ lang = some LANG_ENGLISH

/-- C7: tapping About sends a *new* message (`send_message`, not an
edit) carrying the Amharic description when the stored language is
Amharic or unset (the `.get('lang', LANG_AMHARIC)` default, app.py
line 122) and the English description when it is English; the stored
language is untouched. -/
theorem about_button_sends_description (first_name : String) (chat_id : Nat) :
    handle_callback none ACTION_ABOUT first_name chat_id =
      (none, [Effect.answerCallback, Effect.sendMessage chat_id ABOUT_TEXT_AM]) ∧
    handle_callback (some LANG_AMHARIC) ACTION_ABOUT first_name chat_id =
      (some LANG_AMHARIC, [Effect.answerCallback, Effect.sendMessage chat_id ABOUT_TEXT_AM]) ∧
    handle_callback (some LANG_ENGLISH) ACTION_ABOUT first_name chat_id =
      (some LANG_ENGLISH, [Effect.answerCallback, Effect.sendMessage chat_id ABOUT_TEXT_EN]) :=
  ⟨rfl, rfl, rfl⟩

/-- C8: `start` never touches `context.user_data`: in every session
state it leaves the stored language exactly as it was and only sends
the two-button language picker. -/
theorem start_preserves_language (lang : SessionLang) :
    (start lang).1 = lang ∧
    (start lang).2 = [Effect.replyText START_TEXT (some startKeyboard)] :=
  ⟨rfl, rfl⟩

/-- Each single handler dispatch preserves the language invariant: the
only write, `context.user_data['lang'] = data` (app.py line 107), is
guarded by `data in [LANG_AMHARIC, LANG_ENGLISH]` (line 106). -/
lemma process_update_langValid (apiKeyConfigured : Bool)
    (call : String → Nat → GenOutcome) (lang : SessionLang) (u : BotUpdate)
    (h : langValid lang) :
    langValid (process_update apiKeyConfigured call lang u).1 := by
  cases u with
  | startCmd => exact h
  | callback data first_name chat_id =>
    show langValid (handle_callback lang data first_name chat_id).1
    by_cases h1 : data = LANG_AMHARIC ∨ data = LANG_ENGLISH
    · rcases h1 with h1 | h1 <;> subst h1 <;> simp [handle_callback, langValid, LANG_AMHARIC, LANG_ENGLISH]
    · by_cases h2 : data = ACTION_ABOUT
      · simpa [handle_callback, h1, h2] using h
      · simpa [handle_callback, h1, h2] using h
  | textMsg text chat_id => exact h

/-- C9: over every sequence of handled updates starting from a fresh
session (no `lang` entry), the stored language is always absent or one
of exactly the two valid codes `'AM'` and `'EN'`. -/
theorem language_invariant_all_runs (apiKeyConfigured : Bool)
    (call : String → Nat → GenOutcome) (updates : List BotUpdate) :
    langValid (runUpdates apiKeyConfigured call updates none) := by
  have step : ∀ (us : List BotUpdate) (lang : SessionLang), langValid lang →
      langValid (runUpdates apiKeyConfigured call us lang) := by
    intro us
    induction us with
    | nil => intro lang h; exact h
    | cons u us ih =>
      intro lang h
      exact ih _ (process_update_langValid apiKeyConfigured call lang u h)
  exact step updates none (Or.inl rfl)

/-- C10: a callback whose data is neither language code nor the About
action is answered (`query.answer()`, app.py line 102) but falls
through both branches of the `if`/`elif` (lines 106, 121): the session
language is unchanged and no message is sent or edited. -/
theorem unknown_callback_only_answers (lang : SessionLang) (data first_name : String)
    (chat_id : Nat) (h1 : data ≠ LANG_AMHARIC) (h2 : data ≠ LANG_ENGLISH)
    (h3 : data ≠ ACTION_ABOUT) :
    handle_callback lang data first_name chat_id = (lang, [Effect.answerCallback]) := by
  simp [handle_callback, h1, h2, h3]

/-- Witness for C10: callback data `"XYZ"` with a stored Amharic
preference: only the acknowledgement happens. -/
theorem unknown_callback_only_answers_witness :
    handle_callback (some "AM") "XYZ" "Alice" 5 = (some "AM", [Effect.answerCallback]) :=
  unknown_callback_only_answers (some "AM") "XYZ" "Alice" 5 (by decide) (by decide) (by decide)

/-- An HTTP response: status code and body.  For non-200 statuses the
body below abbreviates Flask's standard error page for that status. -/
structure HttpResponse where
  status : Nat
  body : String
deriving DecidableEq

/-- The decode/dispatch behaviour of one `POST /telegram` request body:
whether `request.get_json(force=True)` can parse it as JSON, and
whether `Update.de_json` / `dispatcher.process_update` raises on the
parsed payload. -/
structure TelegramRequest where
  bodyIsValidJson : Bool
  dispatchRaises : Bool
deriving DecidableEq

/-- The Flask view `webhook()` (app.py lines 176-183), with the
framework's documented semantics for uncaught errors made explicit.
The view has no `try`/`except`: when the dispatcher is configured it
runs `request.get_json(force=True)`, which raises `BadRequest` on a
body that is not parseable JSON — Flask turns that into an HTTP 400
response — and then `Update.de_json` plus
`dispatcher.process_update`, whose exceptions escape the view and
become an HTTP 500 response.  Only when neither step raises (or when
`TELEGRAM_TOKEN` is unset, so `dispatcher` is `None` and the body is
never decoded) does the view reach `return 'ok'`.  The route accepts
only POST, so only POST requests are modelled. -/
def webhook (dispatcherConfigured : Bool) (req : TelegramRequest) : HttpResponse :=
  if dispatcherConfigured then
    if req.bodyIsValidJson = false then ⟨400, "Bad Request"⟩
    else if req.dispatchRaises then ⟨500, "Internal Server Error"⟩
    else ⟨200, "ok"⟩
  else ⟨200, "ok"⟩

/-- C2 counterexample: a request body that is not valid JSON, with the
dispatcher configured, makes `request.get_json(force=True)` raise
`BadRequest`; the response is HTTP 400, not `200 "ok"`. -/
theorem webhook_malformed_body_counterexample :
    webhook true ⟨false, false⟩ ≠ HttpResponse.mk 200 "ok" ∧
    webhook true ⟨false, false⟩ = HttpResponse.mk 400 "Bad Request" :=
  ⟨by decide, rfl⟩

/-- C2 amended: `POST /telegram` responds `200 "ok"` exactly when the
dispatcher is unconfigured or the body parses as JSON and its dispatch
raises nothing; a non-JSON body surfaces as HTTP 400 and a dispatch
exception as HTTP 500 — the view swallows no errors. -/
theorem webhook_ok_iff (dispatcherConfigured : Bool) (req : TelegramRequest) :
    webhook dispatcherConfigured req = HttpResponse.mk 200 "ok" ↔
      (dispatcherConfigured = false ∨
        (req.bodyIsValidJson = true ∧ req.dispatchRaises = false)) := by
  rcases req with ⟨bj, dr⟩
  cases dispatcherConfigured <;> cases bj <;> cases dr <;> decide

end TaborBot
